import Mathlib

/-!
Verification of the ETH balance checker core (address validator, wei→ether
converter, and the POST request handler), shallowly embedded from the source.
-/

namespace EthBalance

/-- JavaScript's `\d` character class: the characters `0`–`9`. -/
def isDigitChar (c : Char) : Bool := decide ('0' ≤ c ∧ c ≤ '9')

/-- Embedding of the test `/^\d+$/.test(weiStr)`: at least one character and
every character a decimal digit. -/
def isDigitString (s : String) : Bool := !s.data.isEmpty && s.data.all isDigitChar

/-- Embedding of `BigInt(weiStr)` on an all-digit string: fold the decimal
digits into an arbitrary-precision natural number. -/
def parseDigits (l : List Char) : Nat := l.foldl (fun a c => a * 10 + (c.toNat - 48)) 0

/-- `BigInt` parse of a string of decimal digits. -/
def parseNat (s : String) : Nat := parseDigits s.data

/-- The decimal digit character for `d < 10`. -/
def digitChar (d : Nat) : Char := Char.ofNat (48 + d)

/-- Decimal digit list of `n` (most significant first), with fuel; this embeds
`BigInt.prototype.toString()`.  Fuel `n + 1` always suffices. -/
def toDecimalAux : Nat → Nat → List Char
  | 0, _ => []
  | fuel + 1, n =>
    if n < 10 then [digitChar n]
    else toDecimalAux fuel (n / 10) ++ [digitChar (n % 10)]

/-- Embedding of `BigInt.prototype.toString()`: decimal representation. -/
def natToString (n : Nat) : String := ⟨toDecimalAux (n + 1) n⟩

/-- Embedding of `String.prototype.padStart(5, "0")`. -/
def padStart5 (s : String) : String := ⟨List.replicate (5 - s.data.length) '0' ++ s.data⟩

/-- Embedding of `weiToEtherFixed5` (src/unnamed/part_000, lines 8–17):
convert a wei string to an ether string with 5 decimals using BigInt math. -/
def weiToEtherFixed5 (weiStr : String) : String :=
  if !isDigitString weiStr then "0.00000"
  else
    let wei := parseNat weiStr
    let base := 10 ^ 18
    let whole := wei / base
    let remainder := wei % base
    let scaled := remainder * 10 ^ 5 / base
    let decimals := padStart5 (natToString scaled)
    natToString whole ++ "." ++ decimals

/-- The whitespace characters removed by `String.prototype.trim` (ECMAScript
WhiteSpace and LineTerminator). -/
def isJsWhitespace (c : Char) : Bool :=
  c.toNat = 9 || c.toNat = 10 || c.toNat = 11 || c.toNat = 12 || c.toNat = 13 ||
  c.toNat = 32 || c.toNat = 160 || c.toNat = 0x1680 ||
  (0x2000 ≤ c.toNat && c.toNat ≤ 0x200A) || c.toNat = 0x2028 || c.toNat = 0x2029 ||
  c.toNat = 0x202F || c.toNat = 0x205F || c.toNat = 0x3000 || c.toNat = 0xFEFF

/-- Embedding of `String.prototype.trim`: drop leading and trailing
whitespace. -/
def trim (s : String) : String :=
  ⟨((s.data.dropWhile isJsWhitespace).reverse.dropWhile isJsWhitespace).reverse⟩

/-- The regex character class `[a-fA-F0-9]`. -/
def isHexChar (c : Char) : Bool :=
  decide ('a' ≤ c ∧ c ≤ 'f') || decide ('A' ≤ c ∧ c ≤ 'F') || decide ('0' ≤ c ∧ c ≤ '9')

/-- Embedding of `isValidEthAddress` (src/unnamed/part_000, lines 3–5):
`/^0x[a-fA-F0-9]{40}$/.test(addr.trim())`. -/
def isValidEthAddress (addr : String) : Bool :=
  match (trim addr).data with
  | c0 :: c1 :: rest => c0 == '0' && c1 == 'x' && rest.length == 40 && rest.all isHexChar
  | _ => false

/-- The `address` field of the parsed JSON body, as a JavaScript value:
absent (`undefined`), a string, or some other value (recording only its
truthiness, which is all the handler inspects). -/
inductive JsField where
  | undef
  | str (s : String)
  | other (truthy : Bool)
deriving DecidableEq

/-- JavaScript truthiness test `!address` on the field (a string is falsy
exactly when it is empty). -/
def JsField.falsy : JsField → Bool
  | .undef => true
  | .str s => s == ""
  | .other t => !t

/-- JavaScript test `typeof address === "string"`. -/
def JsField.isString : JsField → Bool
  | .str _ => true
  | _ => false

/-- The string held by a `.str` field (only read after the handler's guard
has established the field is a string). -/
def JsField.asString : JsField → String
  | .str s => s
  | _ => ""

/-- Outcome of `await req.json()` followed by destructuring `{ address }`:
the parse may throw (absent or unparseable body), the parsed value may be
`null`/`undefined` (destructuring throws), or destructuring succeeds and
yields an `address` field. -/
inductive ParsedBody where
  | throwErr
  | nullish
  | obj (address : JsField)
deriving DecidableEq

/-- The Etherscan response envelope as parsed by the handler:
`{ status?: string; message?: string; result?: string }`. -/
structure Envelope where
  status? : Option String
  message? : Option String
  result? : Option String
deriving DecidableEq

/-- Outcome of `await fetch(url)` (plus `res.json()`): the transport may
throw, return a non-ok status, or return an ok response with an envelope. -/
inductive Transport where
  | throwErr
  | fail (status : Nat)
  | ok (env : Envelope)
deriving DecidableEq

/-- Body of a handler response: `{ balanceEther }` or `{ error }`. -/
inductive HBody where
  | ok (balanceEther : String)
  | err (msg : String)
deriving DecidableEq

/-- A handler response: HTTP status code plus JSON body. -/
structure HandlerResult where
  status : Nat
  body : HBody
deriving DecidableEq

/-- JavaScript truthiness of an optional string (`!apiKey`, `!data.result`):
falsy when absent or the empty string. -/
def optFalsy : Option String → Bool
  | none => true
  | some s => s == ""

/-- JavaScript `||` with a string default (`data.message || "..."`). -/
def jsOrDefault (m : Option String) (d : String) : String :=
  match m with
  | some s => if s = "" then d else s
  | none => d

/-- Embedding of the `POST` handler (src/unnamed/part_000, lines 19–58).
The three inputs stand for the request body parse outcome, the
`ETHERSCAN_API_KEY` environment value, and the outcome of the upstream
Etherscan call; exceptions reach the `catch` and yield 500. -/
def POST (body : ParsedBody) (apiKey : Option String) (transport : Transport) :
    HandlerResult :=
  match body with
  | .throwErr => ⟨500, .err "Unexpected server error."⟩
  | .nullish => ⟨500, .err "Unexpected server error."⟩
  | .obj address =>
    if address.falsy || !address.isString then
      ⟨400, .err "Missing \x27address\x27 in request body."⟩
    else if !isValidEthAddress address.asString then
      ⟨400, .err "Invalid Ethereum address format."⟩
    else if optFalsy apiKey then
      ⟨500, .err "Server misconfiguration: ETHERSCAN_API_KEY is not set."⟩
    else
      match transport with
      | .throwErr => ⟨500, .err "Unexpected server error."⟩
      | .fail st =>
        ⟨502, .err ("Etherscan request failed with status " ++ natToString st ++ ".")⟩
      | .ok env =>
        if env.status? != some "1" || optFalsy env.result? then
          ⟨502, .err (jsOrDefault env.message? "Failed to retrieve balance from Etherscan.")⟩
        else
          ⟨200, .ok (weiToEtherFixed5 (env.result?.getD ""))⟩

/-! ### Arithmetic facts about the decimal printer and parser -/

/-- For a digit value below ten, `digitChar` produces a decimal digit whose
code point is `48 + d`. -/
lemma digitChar_spec : ∀ d, d < 10 → isDigitChar (digitChar d) = true ∧ (digitChar d).toNat = 48 + d := by
  decide

/-- Folding the digit-accumulation step from accumulator `a` shifts the result
of folding from `0` by `a * 10 ^ length`. -/
lemma foldl_digits_shift (l : List Char) (a : Nat) :
    l.foldl (fun a c => a * 10 + (c.toNat - 48)) a
      = a * 10 ^ l.length + l.foldl (fun a c => a * 10 + (c.toNat - 48)) 0 := by
  induction l generalizing a with
  | nil => simp
  | cons c l ih =>
    simp only [List.foldl_cons, List.length_cons]
    rw [ih (a * 10 + (c.toNat - 48)), ih (0 * 10 + (c.toNat - 48))]
    ring

/-- Appending one digit multiplies the parsed value by ten and adds it. -/
lemma parseDigits_append_one (l : List Char) (c : Char) :
    parseDigits (l ++ [c]) = parseDigits l * 10 + (c.toNat - 48) := by
  simp [parseDigits, List.foldl_append]

/-- Leading zero characters do not change the parsed value. -/
lemma parseDigits_replicate_zero (k : Nat) (l : List Char) :
    parseDigits (List.replicate k '0' ++ l) = parseDigits l := by
  induction k with
  | zero => simp
  | succ k ih => simpa [List.replicate_succ, parseDigits] using ih

/-- Round trip: parsing the decimal representation of `n` recovers `n`. -/
lemma toDecimalAux_parse : ∀ fuel n, n < fuel → parseDigits (toDecimalAux fuel n) = n := by
  intro fuel
  induction fuel with
  | zero => omega
  | succ fuel ih =>
    intro n hn
    rw [toDecimalAux]
    by_cases h10 : n < 10
    · simp only [if_pos h10]
      have hd := digitChar_spec n h10
      simp only [parseDigits, List.foldl_cons, List.foldl_nil, hd.2]
      omega
    · simp only [if_neg h10]
      have hrec : n / 10 < fuel := by omega
      have hd := digitChar_spec (n % 10) (by omega)
      rw [parseDigits_append_one, ih (n / 10) hrec, hd.2]
      omega

/-- The decimal representation of `n < 10 ^ k` has at most `k` digits
(for `1 ≤ k`). -/
lemma toDecimalAux_length : ∀ fuel n k, n < fuel → 1 ≤ k → n < 10 ^ k →
    (toDecimalAux fuel n).length ≤ k := by
  intro fuel
  induction fuel with
  | zero => omega
  | succ fuel ih =>
    intro n k hn hk hnk
    rw [toDecimalAux]
    by_cases h10 : n < 10
    · simp [if_pos h10, hk]
    · simp only [if_neg h10, List.length_append, List.length_cons, List.length_nil]
      have hk2 : 2 ≤ k := by
        by_contra hc
        have hk1 : k = 1 := by omega
        subst hk1
        simp at hnk
        omega
      have hdiv : n / 10 < 10 ^ (k - 1) := by
        rw [Nat.div_lt_iff_lt_mul (by norm_num)]
        have : 10 ^ (k - 1) * 10 = 10 ^ k := by
          rw [← pow_succ]
          congr 1
          omega
        omega
      have := ih (n / 10) (k - 1) (by omega) (by omega) hdiv
      omega

/-- Every character of the decimal representation is a decimal digit. -/
lemma toDecimalAux_digits : ∀ fuel n, n < fuel →
    ∀ c ∈ toDecimalAux fuel n, isDigitChar c = true := by
  intro fuel
  induction fuel with
  | zero => omega
  | succ fuel ih =>
    intro n hn c hc
    rw [toDecimalAux] at hc
    by_cases h10 : n < 10
    · rw [if_pos h10] at hc
      simp at hc
      subst hc
      exact (digitChar_spec n h10).1
    · rw [if_neg h10] at hc
      rcases List.mem_append.mp hc with hc | hc
      · exact ih (n / 10) (by omega) c hc
      · simp at hc
        subst hc
        exact (digitChar_spec (n % 10) (by omega)).1

/-- Round trip at the string level. -/
lemma parseNat_natToString (n : Nat) : parseNat (natToString n) = n :=
  toDecimalAux_parse (n + 1) n (Nat.lt_succ_self n)

/-- Padding with zeros does not change the parsed value. -/
lemma parseNat_padStart5 (s : String) : parseNat (padStart5 s) = parseNat s :=
  parseDigits_replicate_zero _ _

/-- For `n < 10 ^ 5`, the zero-padded decimal representation has exactly five
characters. -/
lemma padStart5_natToString_length (n : Nat) (h : n < 10 ^ 5) :
    (padStart5 (natToString n)).length = 5 := by
  have hlen : (toDecimalAux (n + 1) n).length ≤ 5 :=
    toDecimalAux_length (n + 1) n 5 (Nat.lt_succ_self n) (by norm_num) h
  simp only [padStart5, natToString, String.length]
  simp only [List.length_append, List.length_replicate]
  omega

/-- Every character of the zero-padded decimal representation is a digit. -/
lemma padStart5_natToString_digits (n : Nat) :
    (padStart5 (natToString n)).data.all isDigitChar = true := by
  simp only [padStart5, natToString, List.all_append, Bool.and_eq_true, List.all_eq_true]
  constructor
  · intro c hc
    rw [List.eq_of_mem_replicate hc]
    decide
  · exact fun c hc => toDecimalAux_digits (n + 1) n (Nat.lt_succ_self n) c hc

/-- Unfolding `weiToEtherFixed5` on a well-formed digit string. -/
lemma weiToEtherFixed5_eq (s : String) (h : isDigitString s = true) :
    weiToEtherFixed5 s
      = natToString (parseNat s / 10 ^ 18) ++ "."
          ++ padStart5 (natToString (parseNat s % 10 ^ 18 * 10 ^ 5 / 10 ^ 18)) := by
  simp [weiToEtherFixed5, h]

/-! ### Claims about the converter and validator -/

/-- C1: for every input string matching `^\d+$`, interpreted as an
arbitrary-precision non-negative integer `V`, `weiToEtherFixed5` returns
`"{floor(V / 10^18)}.{floor((V mod 10^18) * 10^5 / 10^18) zero-padded to 5
digits}"`; in particular `"0" ↦ "0.00000"`, `10^18 ↦ "1.00000"`,
`10^18 - 1 ↦ "0.99999"`, and `"1" ↦ "0.00000"`. -/
theorem weiToEtherFixed5_spec (s : String) (h : isDigitString s = true) :
    weiToEtherFixed5 s
        = natToString (parseNat s / 10 ^ 18) ++ "."
            ++ padStart5 (natToString (parseNat s % 10 ^ 18 * 10 ^ 5 / 10 ^ 18))
      ∧ weiToEtherFixed5 "0" = "0.00000"
      ∧ weiToEtherFixed5 "1000000000000000000" = "1.00000"
      ∧ weiToEtherFixed5 "999999999999999999" = "0.99999"
      ∧ weiToEtherFixed5 "1" = "0.00000" :=
  ⟨weiToEtherFixed5_eq s h, by decide, by decide, by decide, by decide⟩

/-- Witness for C1 at the concrete digit string `"1"`. -/
theorem weiToEtherFixed5_spec_witness :
    weiToEtherFixed5 "1"
        = natToString (parseNat "1" / 10 ^ 18) ++ "."
            ++ padStart5 (natToString (parseNat "1" % 10 ^ 18 * 10 ^ 5 / 10 ^ 18))
      ∧ weiToEtherFixed5 "0" = "0.00000"
      ∧ weiToEtherFixed5 "1000000000000000000" = "1.00000"
      ∧ weiToEtherFixed5 "999999999999999999" = "0.99999"
      ∧ weiToEtherFixed5 "1" = "0.00000" :=
  weiToEtherFixed5_spec "1" (by decide)

/-- C2: `isValidEthAddress s` returns `true` iff the string obtained by
trimming leading and trailing whitespace from `s` is exactly `0x` followed by
exactly 40 characters from `[0-9a-fA-F]`.  (The embedding is a total Lean
function, so totality and purity hold by construction.) -/
theorem isValidEthAddress_iff (s : String) :
    isValidEthAddress s = true ↔
      ∃ hx : List Char, (trim s).data = '0' :: 'x' :: hx ∧ hx.length = 40 ∧
        ∀ c ∈ hx, ('0' ≤ c ∧ c ≤ '9') ∨ ('a' ≤ c ∧ c ≤ 'f') ∨ ('A' ≤ c ∧ c ≤ 'F') := by
  unfold isValidEthAddress
  cases h : (trim s).data with
  | nil => simp [h]
  | cons c0 t =>
    cases t with
    | nil => simp [h]
    | cons c1 rest =>
      constructor
      · intro hb
        have hb' : c0 = '0' ∧ c1 = 'x' ∧ rest.length = 40 ∧
            ∀ c ∈ rest, isHexChar c = true := by
          simpa [Bool.and_eq_true, beq_iff_eq, List.all_eq_true, and_assoc] using hb
        obtain ⟨h0, h1, hlen, hall⟩ := hb'
        subst h0
        subst h1
        refine ⟨rest, rfl, hlen, fun c hc => ?_⟩
        have := hall c hc
        simp only [isHexChar, Bool.or_eq_true, decide_eq_true_eq] at this
        tauto
      · rintro ⟨hx, heq, hlen, hall⟩
        obtain ⟨h0, h1, h2⟩ : c0 = '0' ∧ c1 = 'x' ∧ rest = hx := by
          simpa using heq
        subst h0
        subst h1
        subst h2
        simp only [beq_self_eq_true, Bool.true_and, Bool.and_eq_true, beq_iff_eq,
          List.all_eq_true]
        refine ⟨hlen, fun c hc => ?_⟩
        simp only [isHexChar, Bool.or_eq_true, decide_eq_true_eq]
        have := hall c hc
        tauto

/-- C3: for every input string not matching `^\d+$` (empty, or containing a
non-digit character), `weiToEtherFixed5` returns exactly `"0.00000"`. -/
theorem weiToEtherFixed5_malformed (s : String)
    (h : s = "" ∨ s.data.all isDigitChar = false) :
    weiToEtherFixed5 s = "0.00000" := by
  have hd : isDigitString s = false := by
    rcases h with h | h
    · subst h
      decide
    · simp [isDigitString, h]
  simp [weiToEtherFixed5, hd]

/-- Witness for C3 at the concrete malformed input `"abc"`. -/
theorem weiToEtherFixed5_malformed_witness : weiToEtherFixed5 "abc" = "0.00000" :=
  weiToEtherFixed5_malformed "abc" (Or.inr (by decide))

/-- C4: for every digit-string input, the output parsed as an exact rational
is at most the true balance `V / 10^18` (truncation, never rounding up), and
the fractional part of the output is exactly five digits. -/
theorem weiToEtherFixed5_truncation (s : String) (h : isDigitString s = true) :
    ∃ w f : String,
      weiToEtherFixed5 s = w ++ "." ++ f ∧
      f.length = 5 ∧ f.data.all isDigitChar = true ∧
      (parseNat w : ℚ) + (parseNat f : ℚ) / 10 ^ 5 ≤ (parseNat s : ℚ) / 10 ^ 18 := by
  set V := parseNat s with hV
  have hsc : V % 10 ^ 18 * 10 ^ 5 / 10 ^ 18 < 10 ^ 5 := by
    have hm : V % 10 ^ 18 < 10 ^ 18 := Nat.mod_lt _ (by norm_num)
    rw [Nat.div_lt_iff_lt_mul (by norm_num)]
    omega
  refine ⟨natToString (V / 10 ^ 18),
          padStart5 (natToString (V % 10 ^ 18 * 10 ^ 5 / 10 ^ 18)),
          weiToEtherFixed5_eq s h, padStart5_natToString_length _ hsc,
          padStart5_natToString_digits _, ?_⟩
  rw [parseNat_natToString, parseNat_padStart5, parseNat_natToString]
  have key : (V / 10 ^ 18 * 10 ^ 5 + V % 10 ^ 18 * 10 ^ 5 / 10 ^ 18) * 10 ^ 18
      ≤ V * 10 ^ 5 := by
    have h1 : V % 10 ^ 18 * 10 ^ 5 / 10 ^ 18 * 10 ^ 18 ≤ V % 10 ^ 18 * 10 ^ 5 :=
      Nat.div_mul_le_self _ _
    have h2 : 10 ^ 18 * (V / 10 ^ 18) + V % 10 ^ 18 = V := Nat.div_add_mod V (10 ^ 18)
    calc (V / 10 ^ 18 * 10 ^ 5 + V % 10 ^ 18 * 10 ^ 5 / 10 ^ 18) * 10 ^ 18
        = V / 10 ^ 18 * 10 ^ 18 * 10 ^ 5 + V % 10 ^ 18 * 10 ^ 5 / 10 ^ 18 * 10 ^ 18 := by
          ring
      _ ≤ V / 10 ^ 18 * 10 ^ 18 * 10 ^ 5 + V % 10 ^ 18 * 10 ^ 5 :=
          Nat.add_le_add_left h1 _
      _ = (10 ^ 18 * (V / 10 ^ 18) + V % 10 ^ 18) * 10 ^ 5 := by ring
      _ = V * 10 ^ 5 := by rw [h2]
  have expand : ((V / 10 ^ 18 : ℕ) : ℚ) + ((V % 10 ^ 18 * 10 ^ 5 / 10 ^ 18 : ℕ) : ℚ) / 10 ^ 5
      = (((V / 10 ^ 18 : ℕ) : ℚ) * 10 ^ 5 + ((V % 10 ^ 18 * 10 ^ 5 / 10 ^ 18 : ℕ) : ℚ))
          / 10 ^ 5 := by
    field_simp
  rw [expand, div_le_div_iff₀ (by norm_num) (by norm_num)]
  exact_mod_cast key

/-- Witness for C4 at the concrete digit string `"1"`. -/
theorem weiToEtherFixed5_truncation_witness :
    ∃ w f : String,
      weiToEtherFixed5 "1" = w ++ "." ++ f ∧
      f.length = 5 ∧ f.data.all isDigitChar = true ∧
      (parseNat w : ℚ) + (parseNat f : ℚ) / 10 ^ 5 ≤ (parseNat "1" : ℚ) / 10 ^ 18 :=
  weiToEtherFixed5_truncation "1" (by decide)
/-! ### Claims about the request handler -/

/-- A string different from `""` is truthy: the `==` test is `false`. -/
lemma beq_empty_false_of_ne {s : String} (h : s ≠ "") : (s == "") = false :=
  beq_eq_false_iff_ne.mpr h

/-- A string accepted by the validator is non-empty (so it is truthy). -/
lemma valid_beq_empty_false {s : String} (h : isValidEthAddress s = true) :
    (s == "") = false := by
  refine beq_empty_false_of_ne fun hs => ?_
  subst hs
  exact absurd h (by decide)

/-- C5 counterexample: a request whose body is unparseable (so `req.json()`
throws) is answered by the catch-all with status 500, not with the claimed
400 "Missing 'address'" response. -/
theorem post_unparseable_counterexample :
    POST .throwErr (some "key") (.ok ⟨some "1", none, some "1"⟩)
        = ⟨500, .err "Unexpected server error."⟩
      ∧ POST .throwErr (some "key") (.ok ⟨some "1", none, some "1"⟩)
          ≠ ⟨400, .err "Missing \x27address\x27 in request body."⟩ := by
  decide

/-- C5 (amended): when the body parses and its `address` field is falsy or
not a string, the handler returns 400 with the missing-address message; when
the body is absent or unparseable (the parse throws) or parses to
`null`/`undefined` (destructuring throws), the catch-all returns 500 with
"Unexpected server error.". -/
theorem post_missing_address (address : JsField) (k : Option String) (t : Transport)
    (h : address.falsy = true ∨ address.isString = false) :
    POST (.obj address) k t = ⟨400, .err "Missing \x27address\x27 in request body."⟩
      ∧ POST .throwErr k t = ⟨500, .err "Unexpected server error."⟩
      ∧ POST .nullish k t = ⟨500, .err "Unexpected server error."⟩ := by
  refine ⟨?_, rfl, rfl⟩
  have hc : (address.falsy || !address.isString) = true := by
    rcases h with h | h <;> simp [h]
  simp [POST, hc]

/-- Witness for C5 (amended) at a concrete missing-field request. -/
theorem post_missing_address_witness :
    POST (.obj .undef) none (.fail 7)
        = ⟨400, .err "Missing \x27address\x27 in request body."⟩
      ∧ POST .throwErr none (.fail 7) = ⟨500, .err "Unexpected server error."⟩
      ∧ POST .nullish none (.fail 7) = ⟨500, .err "Unexpected server error."⟩ :=
  post_missing_address .undef none (.fail 7) (Or.inl (by decide))

/-- C6 counterexample: the empty string is a string value that fails the
validator, yet the handler answers with the missing-address message (the
falsy check fires first), not the invalid-format message. -/
theorem post_invalid_format_counterexample :
    isValidEthAddress "" = false
      ∧ POST (.obj (.str "")) (some "key") (.fail 0)
          = ⟨400, .err "Missing \x27address\x27 in request body."⟩
      ∧ POST (.obj (.str "")) (some "key") (.fail 0)
          ≠ ⟨400, .err "Invalid Ethereum address format."⟩ := by
  decide

/-- C6 (amended): for every request body whose `address` field is a
*non-empty* string failing the validator, the handler returns 400 with
"Invalid Ethereum address format.". -/
theorem post_invalid_format (s : String) (k : Option String) (t : Transport)
    (hne : s ≠ "") (hv : isValidEthAddress s = false) :
    POST (.obj (.str s)) k t = ⟨400, .err "Invalid Ethereum address format."⟩ := by
  have he : (s == "") = false := beq_empty_false_of_ne hne
  simp [POST, JsField.falsy, JsField.isString, JsField.asString, he, hv]

/-- Witness for C6 (amended) at the concrete input `"not-an-address"`. -/
theorem post_invalid_format_witness :
    POST (.obj (.str "not-an-address")) none (.fail 0)
      = ⟨400, .err "Invalid Ethereum address format."⟩ :=
  post_invalid_format "not-an-address" none (.fail 0) (by decide) (by decide)

/-- C7: on a success transport status whose envelope status is not `"1"` or
whose result payload is missing (falsy), the handler returns 502 with the
envelope's message, falling back to the generic failure string when the
envelope provides no (non-empty) message. -/
theorem post_upstream_rejected (s : String) (k : String) (env : Envelope)
    (hv : isValidEthAddress s = true) (hk : k ≠ "")
    (hrej : env.status? ≠ some "1" ∨ optFalsy env.result? = true) :
    POST (.obj (.str s)) (some k) (.ok env)
        = ⟨502, .err (jsOrDefault env.message? "Failed to retrieve balance from Etherscan.")⟩
      ∧ ((optFalsy env.message? = true
            ∧ jsOrDefault env.message? "Failed to retrieve balance from Etherscan."
                = "Failed to retrieve balance from Etherscan.")
          ∨ (∃ m, env.message? = some m ∧ m ≠ ""
              ∧ jsOrDefault env.message? "Failed to retrieve balance from Etherscan." = m)) := by
  constructor
  · have he : (s == "") = false := valid_beq_empty_false hv
    have hke : optFalsy (some k) = false := by
      simp [optFalsy, beq_empty_false_of_ne hk]
    have hcond : (env.status? != some "1" || optFalsy env.result?) = true := by
      rcases hrej with h | h
      · have hb : (env.status? != some "1") = true := by
          simp [bne_iff_ne, h]
        simp [hb]
      · simp [h]
    simp [POST, JsField.falsy, JsField.isString, JsField.asString, he, hv, hke, hcond]
  · cases hm : env.message? with
    | none => exact Or.inl ⟨rfl, rfl⟩
    | some m =>
      by_cases hm0 : m = ""
      · subst hm0
        exact Or.inl ⟨rfl, rfl⟩
      · refine Or.inr ⟨m, rfl, hm0, ?_⟩
        simp [jsOrDefault, hm0]

/-- Witness for C7 at a concrete rejected envelope with message `"NOTOK"`. -/
theorem post_upstream_rejected_witness :
    POST (.obj (.str "0xaaaaaaaaaaaaaaaaaaaaaaaaaaaaaaaaaaaaaaaa")) (some "key")
        (.ok ⟨some "0", some "NOTOK", some "5"⟩)
        = ⟨502, .err (jsOrDefault (some "NOTOK") "Failed to retrieve balance from Etherscan.")⟩
      ∧ ((optFalsy (some "NOTOK") = true
            ∧ jsOrDefault (some "NOTOK") "Failed to retrieve balance from Etherscan."
                = "Failed to retrieve balance from Etherscan.")
          ∨ (∃ m, (some "NOTOK" : Option String) = some m ∧ m ≠ ""
              ∧ jsOrDefault (some "NOTOK") "Failed to retrieve balance from Etherscan." = m)) :=
  post_upstream_rejected "0xaaaaaaaaaaaaaaaaaaaaaaaaaaaaaaaaaaaaaaaa" "key"
    ⟨some "0", some "NOTOK", some "5"⟩ (by decide) (by decide) (Or.inl (by decide))

/-- C8: with a valid address, a configured (non-empty) credential, a success
transport status, envelope status `"1"` and a non-empty result payload, the
handler returns 200 with `balanceEther = weiToEtherFixed5 result`; in
particular result `"1000000000000000000"` yields `"1.00000"`. -/
theorem post_success (s : String) (k : String) (env : Envelope) (r : String)
    (hv : isValidEthAddress s = true) (hk : k ≠ "")
    (hst : env.status? = some "1") (hr : env.result? = some r) (hrne : r ≠ "") :
    POST (.obj (.str s)) (some k) (.ok env) = ⟨200, .ok (weiToEtherFixed5 r)⟩
      ∧ weiToEtherFixed5 "1000000000000000000" = "1.00000" := by
  refine ⟨?_, by decide⟩
  have he : (s == "") = false := valid_beq_empty_false hv
  have hke : optFalsy (some k) = false := by
    simp [optFalsy, beq_empty_false_of_ne hk]
  have hcond : (env.status? != some "1" || optFalsy env.result?) = false := by
    simp [hst, hr, optFalsy, beq_empty_false_of_ne hrne]
  simp [POST, JsField.falsy, JsField.isString, JsField.asString, he, hv, hke, hcond, hr]
  exact ⟨hst, by simpa [optFalsy] using hrne⟩

/-- Witness for C8 at the concrete balance `10^18` wei. -/
theorem post_success_witness :
    POST (.obj (.str "0xaaaaaaaaaaaaaaaaaaaaaaaaaaaaaaaaaaaaaaaa")) (some "key")
        (.ok ⟨some "1", none, some "1000000000000000000"⟩)
        = ⟨200, .ok (weiToEtherFixed5 "1000000000000000000")⟩
      ∧ weiToEtherFixed5 "1000000000000000000" = "1.00000" :=
  post_success "0xaaaaaaaaaaaaaaaaaaaaaaaaaaaaaaaaaaaaaaaa" "key"
    ⟨some "1", none, some "1000000000000000000"⟩ "1000000000000000000"
    (by decide) (by decide) rfl rfl (by decide)

/-- C9: an `address` field that is present and equal to the empty string is
falsy, so the handler answers 400 with the missing-address message, not the
invalid-format message. -/
theorem post_empty_string_address (k : Option String) (t : Transport) :
    POST (.obj (.str "")) k t = ⟨400, .err "Missing \x27address\x27 in request body."⟩
      ∧ POST (.obj (.str "")) k t ≠ ⟨400, .err "Invalid Ethereum address format."⟩ := by
  have h : POST (.obj (.str "")) k t
      = ⟨400, .err "Missing \x27address\x27 in request body."⟩ := rfl
  refine ⟨h, ?_⟩
  rw [h]
  decide

/-- C10: an envelope with status `"1"` but an empty-string result payload is
falsy, so the handler treats it as an upstream rejection (502 with the
message-or-generic error) instead of converting it — even though the
converter would render `""` as `"0.00000"`. -/
theorem post_empty_result (s : String) (k : String) (msg : Option String)
    (hv : isValidEthAddress s = true) (hk : k ≠ "") :
    POST (.obj (.str s)) (some k) (.ok ⟨some "1", msg, some ""⟩)
        = ⟨502, .err (jsOrDefault msg "Failed to retrieve balance from Etherscan.")⟩
      ∧ (POST (.obj (.str s)) (some k) (.ok ⟨some "1", msg, some ""⟩)).status ≠ 200
      ∧ weiToEtherFixed5 "" = "0.00000" := by
  have he : (s == "") = false := valid_beq_empty_false hv
  have hke : optFalsy (some k) = false := by
    simp [optFalsy, beq_empty_false_of_ne hk]
  have hmain : POST (.obj (.str s)) (some k) (.ok ⟨some "1", msg, some ""⟩)
      = ⟨502, .err (jsOrDefault msg "Failed to retrieve balance from Etherscan.")⟩ := by
    simp [POST, JsField.falsy, JsField.isString, JsField.asString, he, hv, hke, optFalsy, hk]
  refine ⟨hmain, ?_, by decide⟩
  rw [hmain]
  simp

/-- Witness for C10 at a concrete envelope with message `"NOTOK"`. -/
theorem post_empty_result_witness :
    POST (.obj (.str "0xaaaaaaaaaaaaaaaaaaaaaaaaaaaaaaaaaaaaaaaa")) (some "key")
        (.ok ⟨some "1", some "NOTOK", some ""⟩)
        = ⟨502, .err (jsOrDefault (some "NOTOK") "Failed to retrieve balance from Etherscan.")⟩
      ∧ (POST (.obj (.str "0xaaaaaaaaaaaaaaaaaaaaaaaaaaaaaaaaaaaaaaaa")) (some "key")
          (.ok ⟨some "1", some "NOTOK", some ""⟩)).status ≠ 200
      ∧ weiToEtherFixed5 "" = "0.00000" :=
  post_empty_result "0xaaaaaaaaaaaaaaaaaaaaaaaaaaaaaaaaaaaaaaaa" "key" (some "NOTOK")
    (by decide) (by decide)

example : isValidEthAddress "0xaaaaaaaaaaaaaaaaaaaaaaaaaaaaaaaaaaaaaaaa" = true := by decide
example : isValidEthAddress " 0xAb5801a7D398351b8bE11C439e05C5b3259aec9B " = true := by decide
example : isValidEthAddress "not-an-address" = false := by decide
example : isValidEthAddress "" = false := by decide
example : isValidEthAddress "0xaaaaaaaaaaaaaaaaaaaaaaaaaaaaaaaaaaaaaaa" = false := by decide
example :
    POST (.obj (.str "0xaaaaaaaaaaaaaaaaaaaaaaaaaaaaaaaaaaaaaaaa")) (some "k")
      (.ok ⟨some "1", none, some "1000000000000000000"⟩) = ⟨200, .ok "1.00000"⟩ := by decide
example :
    POST (.obj (.str "0xaaaaaaaaaaaaaaaaaaaaaaaaaaaaaaaaaaaaaaaa")) (some "k")
      (.ok ⟨some "0", some "NOTOK", some "5"⟩) = ⟨502, .err "NOTOK"⟩ := by decide
example : POST (.obj (.str "")) none (.fail 0) =
    ⟨400, .err "Missing \x27address\x27 in request body."⟩ := by decide
example : POST .throwErr none (.fail 0) = ⟨500, .err "Unexpected server error."⟩ := by decide

end EthBalance
